import Mathlib

/-!
Verification development for the two image-generation client programs of the
repository (the standalone script `generate_image.py` and the FastAPI service
`main.py`).  The data model (chunks of artifacts with type and finish-reason
tags), the request-payload builder, the aspect-ratio tables and the
chunk/artifact scanning loops are embedded as executable Lean definitions,
translated directly from the Python source.  External collaborators (the
Stability provider, PIL, the network) are modelled as explicit oracles passed
in as function arguments; a raised Python exception is modelled as an
`Except.error` / `Option.some` carrying the exception message.
-/

namespace ImageGen

/-- Tag value `generation.FILTER` of the protobuf FinishReason enum
(NULL=0, LENGTH=1, STOP=2, ERROR=3, FILTER=4). -/
def FILTER : Nat := 4

/-- Tag value `generation.ARTIFACT_IMAGE` of the protobuf ArtifactType enum
(ARTIFACT_NONE=0, ARTIFACT_IMAGE=1, ...). -/
def ARTIFACT_IMAGE : Nat := 1

/-- Tag value `generation.SAMPLER_K_DPMPP_2M` of the protobuf sampler enum. -/
def SAMPLER_K_DPMPP_2M : Nat := 9

/-- One artifact of a provider response chunk: a type tag, a finish-reason tag
and a binary payload (`artifact.type`, `artifact.finish_reason`,
`artifact.binary`). -/
structure Artifact where
  type : Nat
  finish_reason : Nat
  binary : List Nat
deriving DecidableEq

/-- One response chunk (`resp` in the Python loops): a list of artifacts. -/
structure Chunk where
  artifacts : List Artifact
deriving DecidableEq

/-- All artifacts of a response stream, in arrival order (chunk order, then
artifact order within each chunk). -/
def artifactsOf : List Chunk → List Artifact
  | [] => []
  | c :: rest => c.artifacts ++ artifactsOf rest

/-- An artifact is decisive when it makes one of the two scanning loops break:
its finish-reason is the safety-filter tag, or its type is the image tag. -/
def decisive (a : Artifact) : Prop :=
  a.finish_reason = FILTER ∨ a.type = ARTIFACT_IMAGE

instance (a : Artifact) : Decidable (decisive a) := by
  unfold decisive; exact inferInstance

/-- Split a list of artifacts at its first decisive artifact: returns
`some (pre, a, post)` with `pre` decisive-free and `a` decisive, or `none`
when no artifact is decisive. -/
def findDecisive : List Artifact → Option (List Artifact × Artifact × List Artifact)
  | [] => none
  | a :: rest =>
    if decisive a then some ([], a, rest)
    else (findDecisive rest).map (fun x => (a :: x.1, x.2.1, x.2.2))

theorem findDecisive_eq_none {l : List Artifact}
    (h : ∀ a ∈ l, ¬ decisive a) : findDecisive l = none := by
  induction l with
  | nil => rfl
  | cons a rest ih =>
    have ha : ¬ decisive a := h a (List.mem_cons_self a rest)
    simp only [findDecisive, if_neg ha,
      ih (fun b hb => h b (List.mem_cons_of_mem a hb)), Option.map_none']

theorem findDecisive_some {l p q : List Artifact} {a : Artifact}
    (h : findDecisive l = some (p, a, q)) :
    l = p ++ a :: q ∧ (∀ b ∈ p, ¬ decisive b) ∧ decisive a := by
  induction l generalizing p with
  | nil => simp [findDecisive] at h
  | cons x rest ih =>
    by_cases hx : decisive x
    · simp only [findDecisive, if_pos hx, Option.some.injEq, Prod.mk.injEq] at h
      obtain ⟨hp, ha, hq⟩ := h
      subst hp; subst ha; subst hq
      exact ⟨rfl, by simp, hx⟩
    · simp only [findDecisive, if_neg hx] at h
      cases hfd : findDecisive rest with
      | none => rw [hfd] at h; simp at h
      | some y =>
        obtain ⟨p', a', q'⟩ := y
        rw [hfd] at h
        simp only [Option.map_some', Option.some.injEq, Prod.mk.injEq] at h
        obtain ⟨hp, ha, hq⟩ := h
        subst ha; subst hq
        obtain ⟨hl, hpre, hdec⟩ := ih (p := p') hfd
        subst hp
        refine ⟨by simp [hl], ?_, hdec⟩
        intro b hb
        rcases List.mem_cons.mp hb with hb | hb
        · subst hb; exact hx
        · exact hpre b hb

theorem findDecisive_eq_some {p q : List Artifact} {a : Artifact}
    (hpre : ∀ b ∈ p, ¬ decisive b) (ha : decisive a) :
    findDecisive (p ++ a :: q) = some (p, a, q) := by
  induction p with
  | nil => simp [findDecisive, if_pos ha]
  | cons x rest ih =>
    have hx : ¬ decisive x := hpre x (List.mem_cons_self x rest)
    have ih' := ih (fun b hb => hpre b (List.mem_cons_of_mem x hb))
    simp only [List.cons_append, findDecisive, if_neg hx, List.append_eq, ih',
      Option.map_some']

theorem findDecisive_append (l₁ l₂ : List Artifact) :
    findDecisive (l₁ ++ l₂) =
      match findDecisive l₁ with
      | some x => some (x.1, x.2.1, x.2.2 ++ l₂)
      | none =>
        match findDecisive l₂ with
        | none => none
        | some y => some (l₁ ++ y.1, y.2.1, y.2.2) := by
  induction l₁ with
  | nil =>
    simp only [List.nil_append, findDecisive]
    cases findDecisive l₂ with
    | none => rfl
    | some y => simp
  | cons a rest ih =>
    by_cases ha : decisive a
    · simp [findDecisive, if_pos ha]
    · simp only [List.cons_append, findDecisive, if_neg ha, List.append_eq, ih]
      cases findDecisive rest with
      | some x => simp
      | none =>
        cases findDecisive l₂ with
        | none => simp
        | some y => simp

/-- Loop state of the service endpoint's response scan
(`main.py` lines 99-101), extended with the list of file writes performed
(filename, bytes) so that persistence is observable in the model. -/
structure MainState where
  image_saved_successfully : Bool := false
  safety_filter_triggered : Bool := false
  error_message : String := "No image generated."
  writes : List (String × List Nat) := []
deriving DecidableEq

/-- Inner artifact loop of the service endpoint (`main.py` lines 104-115).
`pil` models `Image.open`/`img.save`: `.ok ()` means the bytes decoded and the
file was written, `.error e` a raised exception with message `e` (which the
surrounding `try` of the endpoint will catch).  The `Option String` of the
result is the exception, `none` when the loop ran without raising. -/
def mainArtifacts (pil : List Nat → Except String Unit) (output_filename : String) :
    List Artifact → MainState → MainState × Option String
  | [], st => (st, none)
  | a :: rest, st =>
    if a.finish_reason = FILTER then
      ({ st with error_message := "Safety filter activated. Please modify prompt.",
                 safety_filter_triggered := true }, none)
    else if a.type = ARTIFACT_IMAGE then
      match pil a.binary with
      | .error e => (st, some e)
      | .ok _ =>
        ({ st with
            image_saved_successfully := true,
            writes := st.writes ++ [(output_filename, a.binary)] }, none)
    else mainArtifacts pil output_filename rest st

/-- Outer chunk loop of the service endpoint (`main.py` lines 103-117):
scan each chunk's artifacts, and stop after a chunk that set one of the two
break flags. -/
def mainChunks (pil : List Nat → Except String Unit) (output_filename : String) :
    List Chunk → MainState → MainState × Option String
  | [], st => (st, none)
  | c :: rest, st =>
    match mainArtifacts pil output_filename c.artifacts st with
    | (st', some e) => (st', some e)
    | (st', none) =>
      if st'.image_saved_successfully || st'.safety_filter_triggered then (st', none)
      else mainChunks pil output_filename rest st'

theorem mainArtifacts_eq (pil : List Nat → Except String Unit) (fn : String)
    (l : List Artifact) (st : MainState) :
    mainArtifacts pil fn l st =
      match findDecisive l with
      | none => (st, none)
      | some x =>
        if x.2.1.finish_reason = FILTER then
          ({ st with error_message := "Safety filter activated. Please modify prompt.",
                     safety_filter_triggered := true }, none)
        else match pil x.2.1.binary with
          | .error e => (st, some e)
          | .ok _ =>
            ({ st with
                image_saved_successfully := true,
                writes := st.writes ++ [(fn, x.2.1.binary)] }, none) := by
  induction l with
  | nil => rfl
  | cons a rest ih =>
    by_cases hf : a.finish_reason = FILTER
    · have hd : decisive a := Or.inl hf
      simp [mainArtifacts, findDecisive, if_pos hd, hf]
    · by_cases ht : a.type = ARTIFACT_IMAGE
      · have hd : decisive a := Or.inr ht
        simp [mainArtifacts, findDecisive, if_pos hd, hf, ht]
      · have hd : ¬ decisive a := by
          intro h; rcases h with h | h
          · exact hf h
          · exact ht h
        simp only [mainArtifacts, if_neg hf, if_neg ht, findDecisive, if_neg hd, ih]
        cases findDecisive rest with
        | none => rfl
        | some x => simp

theorem mainChunks_eq (pil : List Nat → Except String Unit) (fn : String)
    (cs : List Chunk) (st : MainState)
    (h1 : st.image_saved_successfully = false)
    (h2 : st.safety_filter_triggered = false) :
    mainChunks pil fn cs st =
      match findDecisive (artifactsOf cs) with
      | none => (st, none)
      | some x =>
        if x.2.1.finish_reason = FILTER then
          ({ st with error_message := "Safety filter activated. Please modify prompt.",
                     safety_filter_triggered := true }, none)
        else match pil x.2.1.binary with
          | .error e => (st, some e)
          | .ok _ =>
            ({ st with
                image_saved_successfully := true,
                writes := st.writes ++ [(fn, x.2.1.binary)] }, none) := by
  induction cs generalizing st with
  | nil => rfl
  | cons c rest ih =>
    simp only [mainChunks]
    rw [mainArtifacts_eq, show artifactsOf (c :: rest) = c.artifacts ++ artifactsOf rest from rfl,
        findDecisive_append]
    cases hfd : findDecisive c.artifacts with
    | none =>
      simp only [h1, h2, Bool.or_self, Bool.false_eq_true, if_false, ih st h1 h2]
      cases findDecisive (artifactsOf rest) with
      | none => rfl
      | some y => rfl
    | some x =>
      by_cases hf : x.2.1.finish_reason = FILTER
      · simp [hf, h1]
      · simp only [if_neg hf]
        cases pil x.2.1.binary with
        | error e => simp
        | ok u => simp [h1, h2]

/-- Diagnostic line recorded by the standalone script for each artifact it
inspects (`generate_image.py` line 68). -/
def artifactInfo (a : Artifact) : String :=
  "Artifact type: " ++ toString a.type ++ ", Finish reason: " ++ toString a.finish_reason

/-- Value of `last_artifact_type_info` after folding the diagnostic update of
`generate_image.py` line 68 over a list of artifacts, starting from `d`. -/
def lastInfoUpd (d : String) : List Artifact → String
  | [] => d
  | a :: rest => lastInfoUpd (artifactInfo a) rest

theorem lastInfoUpd_append (d : String) (l₁ l₂ : List Artifact) :
    lastInfoUpd d (l₁ ++ l₂) = lastInfoUpd (lastInfoUpd d l₁) l₂ := by
  induction l₁ generalizing d with
  | nil => rfl
  | cons a rest ih => simp only [List.cons_append, lastInfoUpd, List.append_eq, ih]

theorem lastInfoUpd_eq_getLast (d : String) (l : List Artifact) :
    lastInfoUpd d l = match l.getLast? with
      | none => d
      | some a => artifactInfo a := by
  induction l generalizing d with
  | nil => rfl
  | cons a rest ih =>
    rw [show lastInfoUpd d (a :: rest) = lastInfoUpd (artifactInfo a) rest from rfl, ih]
    cases rest with
    | nil => rfl
    | cons b t =>
      rw [List.getLast?_cons_cons]
      cases h : (b :: t).getLast? with
      | none => simp [List.getLast?] at h
      | some x => rfl

/-- Loop state of the standalone script's response scan
(`generate_image.py` lines 62-64), extended with the list of file writes
performed. -/
structure ScriptState where
  image_saved : Bool := false
  safety_filter_activated : Bool := false
  last_artifact_type_info : String := "No specific artifact processed."
  writes : List (String × List Nat) := []
deriving DecidableEq

/-- Inner artifact loop of the standalone script
(`generate_image.py` lines 67-81): record the artifact's diagnostic line,
then break on a filter finish-reason, else on an image-type artifact decode
and save it. -/
def scriptArtifacts (pil : List Nat → Except String Unit) (fn : String) :
    List Artifact → ScriptState → ScriptState × Option String
  | [], st => (st, none)
  | a :: rest, st =>
    let st₀ := { st with last_artifact_type_info := artifactInfo a }
    if a.finish_reason = FILTER then
      ({ st₀ with safety_filter_activated := true }, none)
    else if a.type = ARTIFACT_IMAGE then
      match pil a.binary with
      | .error e => (st₀, some e)
      | .ok _ =>
        ({ st₀ with
            image_saved := true,
            writes := st₀.writes ++ [(fn, a.binary)] }, none)
    else scriptArtifacts pil fn rest st₀

/-- Outer chunk loop of the standalone script
(`generate_image.py` lines 66-83). -/
def scriptChunks (pil : List Nat → Except String Unit) (fn : String) :
    List Chunk → ScriptState → ScriptState × Option String
  | [], st => (st, none)
  | c :: rest, st =>
    match scriptArtifacts pil fn c.artifacts st with
    | (st', some e) => (st', some e)
    | (st', none) =>
      if st'.image_saved || st'.safety_filter_activated then (st', none)
      else scriptChunks pil fn rest st'

theorem scriptArtifacts_eq (pil : List Nat → Except String Unit) (fn : String)
    (l : List Artifact) (st : ScriptState) :
    scriptArtifacts pil fn l st =
      match findDecisive l with
      | none =>
        ({ st with last_artifact_type_info := lastInfoUpd st.last_artifact_type_info l }, none)
      | some x =>
        if x.2.1.finish_reason = FILTER then
          ({ st with
              last_artifact_type_info := artifactInfo x.2.1,
              safety_filter_activated := true }, none)
        else match pil x.2.1.binary with
          | .error e => ({ st with last_artifact_type_info := artifactInfo x.2.1 }, some e)
          | .ok _ =>
            ({ st with
                last_artifact_type_info := artifactInfo x.2.1,
                image_saved := true,
                writes := st.writes ++ [(fn, x.2.1.binary)] }, none) := by
  induction l generalizing st with
  | nil => rfl
  | cons a rest ih =>
    by_cases hf : a.finish_reason = FILTER
    · have hd : decisive a := Or.inl hf
      simp [scriptArtifacts, findDecisive, if_pos hd, hf]
    · by_cases ht : a.type = ARTIFACT_IMAGE
      · have hd : decisive a := Or.inr ht
        simp [scriptArtifacts, findDecisive, if_pos hd, hf, ht]
      · have hd : ¬ decisive a := by
          intro h; rcases h with h | h
          · exact hf h
          · exact ht h
        simp only [scriptArtifacts, if_neg hf, if_neg ht, findDecisive, if_neg hd,
          ih { st with last_artifact_type_info := artifactInfo a }]
        cases findDecisive rest with
        | none => simp [lastInfoUpd]
        | some x => simp

theorem scriptChunks_eq (pil : List Nat → Except String Unit) (fn : String)
    (cs : List Chunk) (st : ScriptState)
    (h1 : st.image_saved = false)
    (h2 : st.safety_filter_activated = false) :
    scriptChunks pil fn cs st =
      match findDecisive (artifactsOf cs) with
      | none =>
        ({ st with
            last_artifact_type_info :=
              lastInfoUpd st.last_artifact_type_info (artifactsOf cs) }, none)
      | some x =>
        if x.2.1.finish_reason = FILTER then
          ({ st with
              last_artifact_type_info := artifactInfo x.2.1,
              safety_filter_activated := true }, none)
        else match pil x.2.1.binary with
          | .error e => ({ st with last_artifact_type_info := artifactInfo x.2.1 }, some e)
          | .ok _ =>
            ({ st with
                last_artifact_type_info := artifactInfo x.2.1,
                image_saved := true,
                writes := st.writes ++ [(fn, x.2.1.binary)] }, none) := by
  induction cs generalizing st with
  | nil => rfl
  | cons c rest ih =>
    simp only [scriptChunks]
    rw [scriptArtifacts_eq, show artifactsOf (c :: rest) = c.artifacts ++ artifactsOf rest from rfl,
        findDecisive_append]
    cases hfd : findDecisive c.artifacts with
    | none =>
      simp only [h1, h2, Bool.or_self, Bool.false_eq_true, if_false]
      rw [ih { image_saved := false, safety_filter_activated := false,
               last_artifact_type_info := lastInfoUpd st.last_artifact_type_info c.artifacts,
               writes := st.writes } rfl rfl]
      simp only [lastInfoUpd_append]
      cases findDecisive (artifactsOf rest) with
      | none => simp [h1, h2]
      | some y => simp [h1, h2]
    | some x =>
      by_cases hf : x.2.1.finish_reason = FILTER
      · simp [hf, h1]
      · simp only [if_neg hf]
        cases pil x.2.1.binary with
        | error e => simp
        | ok u => simp [h1, h2]

/-- Outcome of the standalone script's processing section
(`generate_image.py` lines 62-86): an image was saved, the safety filter was
reported, the no-image diagnostic of line 86 was printed, or an exception
escaped the (un-guarded) loop. -/
inductive ScriptOutcome where
  | saved (filename : String)
  | filtered
  | empty (diagnostic : String)
  | raised (e : String)
deriving DecidableEq

/-- Fixed output filename of the standalone script (`generate_image.py` line 38). -/
def output_filename : String := "castle_widescreen.png"

/-- Classification of a full response stream by the standalone script
(`generate_image.py` lines 62-86). -/
def script_outcome (pil : List Nat → Except String Unit) (answers : List Chunk) :
    ScriptOutcome :=
  match scriptChunks pil output_filename answers {} with
  | (_, some e) => .raised e
  | (st, none) =>
    if st.image_saved then .saved output_filename
    else if st.safety_filter_activated then .filtered
    else .empty ("No image artifact found in the response. Last artifact info: "
                  ++ st.last_artifact_type_info)

/-- One weighted prompt component (`generation.Prompt` with
`generation.PromptParameters(weight=...)`).  The two weights appearing in the
source, `1.0` and `-1.0`, are integral, so weights are modelled as `Int`. -/
structure WeightedPrompt where
  text : String
  weight : Int
deriving DecidableEq

/-- The `prompt` argument handed to `stability_api.generate`: either a bare
string or a list of weighted prompt components, exactly as the Python
conditional expression builds it. -/
inductive PromptArg where
  | plain (text : String)
  | weighted (prompts : List WeightedPrompt)
deriving DecidableEq

/-- The argument set of the `stability_api.generate` call shared by both
programs (`main.py` lines 86-97, `generate_image.py` lines 46-58).
`cfg_scale` is `7.0` in the source, an integral float, modelled as `Int`. -/
structure GenerateRequest where
  prompt : PromptArg
  steps : Nat
  cfg_scale : Int
  width : Nat
  height : Nat
  samples : Nat
  sampler : Nat
deriving DecidableEq

/-- The conditional prompt argument
`[Prompt(prompt, weight=1.0), Prompt(negative_prompt, weight=-1.0)] if
negative_prompt else prompt` (`main.py` lines 87-90,
`generate_image.py` lines 47-50); a Python string is truthy iff non-empty. -/
def buildPromptArg (prompt negative_prompt : String) : PromptArg :=
  if negative_prompt ≠ "" then
    .weighted [⟨prompt, 1⟩, ⟨negative_prompt, -1⟩]
  else .plain prompt

/-- Modelled from the spec: the provider SDK's encoding of the `prompt`
argument into the weighted prompt components of the wire payload.  The
encoding of a bare string prompt happens inside the external `stability_sdk`
library, whose source is not part of this repository; the spec states that
with an empty negative prompt the payload must "encode only the single
positive prompt", as one component "at weight +1.0".  A component list is
passed through unchanged. -/
def promptComponents : PromptArg → List WeightedPrompt
  | .plain t => [⟨t, 1⟩]
  | .weighted ps => ps

/-- Service aspect-ratio table `ASPECT_RATIOS` (`main.py` lines 43-49),
as an association list in the dict's insertion order. -/
def ASPECT_RATIOS : List (String × Nat × Nat) :=
  [("1:1_square", 1024, 1024),
   ("16:9_widescreen", 1344, 768),
   ("9:16_tall", 768, 1344),
   ("3:2_landscape", 1216, 832),
   ("2:3_portrait", 832, 1216)]

/-- Standalone aspect-ratio table `aspect_ratios`
(`generate_image.py` lines 30-34). -/
def aspect_ratios : List (String × Nat × Nat) :=
  [("1:1_square", 1024, 1024),
   ("16:9_widescreen", 1344, 768),
   ("9:16_tall", 768, 1344)]

/-- Dictionary lookup on an aspect-ratio table: `some (width, height)` when
the key is present, `none` otherwise. -/
def lookupKey (k : String) : List (String × Nat × Nat) → Option (Nat × Nat)
  | [] => none
  | (k', w, h) :: rest => if k = k' then some (w, h) else lookupKey k rest

/-- Key list of an aspect-ratio table (`list(ASPECT_RATIOS.keys())`). -/
def tableKeys (t : List (String × Nat × Nat)) : List String := t.map Prod.fst

/-- Whether the process-wide `stability_api` handle is set
(`main.py` line 16 / lines 32-40): `uninitialized` models `None`. -/
inductive ClientState where
  | uninitialized
  | initialized
deriving DecidableEq

/-- Startup hook of the service (`main.py` lines 20-40): with the credential
missing or empty the handle stays `None`; otherwise the client constructor is
attempted (modelled by the `connect` oracle) and a constructor exception also
leaves the handle `None`. -/
def startup_event (api_key : Option String) (connect : String → Except String Unit) :
    ClientState :=
  match api_key with
  | none => .uninitialized
  | some k =>
    if k = "" then .uninitialized
    else
      match connect k with
      | .ok _ => .initialized
      | .error _ => .uninitialized

/-- The structured JSON-like objects returned by the endpoint, one
constructor per `return` site of `generate_image_endpoint`:
`errDetail` is the not-initialized object (keys `error`/`detail`),
`errKeys` the invalid-aspect-ratio object (keys `error`/`available_keys`),
`success` the success object, and `errDetails` the two `error`/`details`
objects (no-image and caught-exception). -/
inductive EndpointResult where
  | errDetail (error detail : String)
  | errKeys (error : String) (available_keys : List String)
  | success (message filename prompt negative_prompt aspect_key : String)
  | errDetails (error details : String)
deriving DecidableEq

/-- Observable effects of one endpoint invocation: the returned object, the
request of the `stability_api.generate` call when one was made, and the file
writes performed. -/
structure EndpointRun where
  result : EndpointResult
  providerCalled : Option GenerateRequest
  writes : List (String × List Nat)
deriving DecidableEq

/-- The full argument record of the service's `stability_api.generate` call
(`main.py` lines 86-97). -/
def buildRequest (prompt negative_prompt : String) (w h : Nat) : GenerateRequest :=
  { prompt := buildPromptArg prompt negative_prompt,
    steps := 50, cfg_scale := 7, width := w, height := h,
    samples := 1, sampler := SAMPLER_K_DPMPP_2M }

/-- The `detail` string of the not-initialized response (`main.py` line 63
and line 66); `keySet` is the truthiness of `STABILITY_KEY` in the
environment at request time. -/
def notInitDetail (keySet : Bool) : String :=
  "STABILITY_KEY status: "
    ++ (if keySet then "Set, but connection FAILED on startup"
        else "NOT SET or connection FAILED")
    ++ ". Please ensure it\x27s set correctly when starting Uvicorn."

/-- The `/generate-image/` endpoint (`main.py` lines 57-132).  `client` is
the process-wide handle state, `keySet` the truthiness of the
`STABILITY_KEY` environment variable at request time, `provider` the
`stability_api.generate` network call (`.error e` a raised exception),
`pil` the PIL decode-and-save oracle, and `output_filename` the
uuid-generated per-request filename of line 76. -/
def generate_image_endpoint (client : ClientState) (keySet : Bool)
    (provider : GenerateRequest → Except String (List Chunk))
    (pil : List Nat → Except String Unit)
    (output_filename : String)
    (prompt : String) (negative_prompt : String) (aspect_ratio_key : String) :
    EndpointRun :=
  match client with
  | .uninitialized =>
    { result := .errDetail "Stability API not initialized. Check server logs."
        (notInitDetail keySet),
      providerCalled := none, writes := [] }
  | .initialized =>
    match lookupKey aspect_ratio_key ASPECT_RATIOS with
    | none =>
      { result := .errKeys "Invalid aspect_ratio_key" (tableKeys ASPECT_RATIOS),
        providerCalled := none, writes := [] }
    | some (w, h) =>
      let req := buildRequest prompt negative_prompt w h
      match provider req with
      | .error e =>
        { result := .errDetails "Failed to generate image." e,
          providerCalled := some req, writes := [] }
      | .ok answers =>
        match mainChunks pil output_filename answers {} with
        | (st, some e) =>
          { result := .errDetails "Failed to generate image." e,
            providerCalled := some req, writes := st.writes }
        | (st, none) =>
          if st.image_saved_successfully then
            { result := .success "Image generated successfully!" output_filename
                prompt negative_prompt aspect_ratio_key,
              providerCalled := some req, writes := st.writes }
          else
            { result := .errDetails st.error_message "Could not generate or save image.",
              providerCalled := some req, writes := st.writes }

theorem endpoint_providerCalled (keySet : Bool)
    (provider : GenerateRequest → Except String (List Chunk))
    (pil : List Nat → Except String Unit)
    (fn prompt neg key : String) (w h : Nat)
    (hkey : lookupKey key ASPECT_RATIOS = some (w, h)) :
    (generate_image_endpoint .initialized keySet provider pil fn prompt neg key).providerCalled
      = some (buildRequest prompt neg w h) := by
  simp only [generate_image_endpoint, hkey]
  cases provider (buildRequest prompt neg w h) with
  | error e => rfl
  | ok answers =>
    rcases hm : mainChunks pil fn answers ({} : MainState) with ⟨st, eo⟩
    cases eo with
    | some e => simp [hm]
    | none =>
      by_cases hs : st.image_saved_successfully = true
      · simp [hm, hs]
      · simp [hm, hs]

/-- C1: in both programs, when the response stream's first decisive artifact
(the first one with either a filter finish-reason or an image type) is a
filter artifact, the run is classified Filtered — the filter flag is set, no
image is saved and nothing is written — regardless of the artifacts after it
(`post` is arbitrary, so later valid images in the same or a later chunk are
never examined).  In particular this holds when the very first artifact of
the stream carries the filter finish-reason. -/
theorem C1_first_filter_wins (pil : List Nat → Except String Unit) (fn : String)
    (cs : List Chunk) (pre post : List Artifact) (a : Artifact)
    (hsplit : artifactsOf cs = pre ++ a :: post)
    (hpre : ∀ b ∈ pre, b.finish_reason ≠ FILTER ∧ b.type ≠ ARTIFACT_IMAGE)
    (ha : a.finish_reason = FILTER) :
    mainChunks pil fn cs {} =
      ({ safety_filter_triggered := true,
         error_message := "Safety filter activated. Please modify prompt." }, none)
    ∧ script_outcome pil cs = .filtered := by
  have hnd : ∀ b ∈ pre, ¬ decisive b := by
    intro b hb hdec
    rcases hdec with h | h
    · exact (hpre b hb).1 h
    · exact (hpre b hb).2 h
  have hfd : findDecisive (artifactsOf cs) = some (pre, a, post) := by
    rw [hsplit]; exact findDecisive_eq_some hnd (Or.inl ha)
  constructor
  · rw [mainChunks_eq pil fn cs {} rfl rfl, hfd]
    simp [ha]
  · unfold script_outcome
    rw [scriptChunks_eq pil output_filename cs {} rfl rfl, hfd]
    simp [ha]

theorem C1_witness :
    (artifactsOf [⟨[⟨0, 4, []⟩]⟩, ⟨[⟨1, 0, [7]⟩]⟩]
        = [] ++ (⟨0, 4, []⟩ : Artifact) :: [⟨1, 0, [7]⟩]
      ∧ (∀ b ∈ ([] : List Artifact), b.finish_reason ≠ FILTER ∧ b.type ≠ ARTIFACT_IMAGE)
      ∧ (⟨0, 4, []⟩ : Artifact).finish_reason = FILTER)
    ∧ (mainChunks (fun _ => .ok ()) "file.png" [⟨[⟨0, 4, []⟩]⟩, ⟨[⟨1, 0, [7]⟩]⟩] {} =
        ({ safety_filter_triggered := true,
           error_message := "Safety filter activated. Please modify prompt." }, none)
      ∧ script_outcome (fun _ => .ok ()) [⟨[⟨0, 4, []⟩]⟩, ⟨[⟨1, 0, [7]⟩]⟩] = .filtered) :=
  ⟨⟨rfl, by simp, rfl⟩,
   C1_first_filter_wins (fun _ => .ok ()) "file.png"
     [⟨[⟨0, 4, []⟩]⟩, ⟨[⟨1, 0, [7]⟩]⟩] [] [⟨1, 0, [7]⟩] ⟨0, 4, []⟩
     rfl (by simp) rfl⟩

/-- C2 counterexample: two response streams whose only (hence last observed)
artifact differs in finish-reason (0 versus 3) produce literally identical
service-endpoint results, and that result is the fixed pair
"No image generated." / "Could not generate or save image.": the service's
Empty result carries no information about the type or finish-reason of the
last artifact observed, contradicting the claim for the service endpoint. -/
theorem C2_counterexample :
    generate_image_endpoint .initialized true (fun _ => .ok [⟨[⟨0, 0, []⟩]⟩])
        (fun _ => .ok ()) "f.png" "p" "" "1:1_square"
      = generate_image_endpoint .initialized true (fun _ => .ok [⟨[⟨0, 3, []⟩]⟩])
        (fun _ => .ok ()) "f.png" "p" "" "1:1_square"
    ∧ (generate_image_endpoint .initialized true (fun _ => .ok [⟨[⟨0, 0, []⟩]⟩])
        (fun _ => .ok ()) "f.png" "p" "" "1:1_square").result
      = .errDetails "No image generated." "Could not generate or save image."
    ∧ (⟨0, 0, []⟩ : Artifact).finish_reason ≠ (⟨0, 3, []⟩ : Artifact).finish_reason :=
  ⟨rfl, rfl, by decide⟩

/-- C2 amended: a response stream exhausted with no filter signal and no
image artifact is classified Empty by both programs; the standalone script's
diagnostic identifies the type and finish-reason of the last artifact
observed (or the explicit no-artifacts marker when the stream had none),
while the service endpoint returns the fixed generic message
"No image generated." / "Could not generate or save image." that does not
identify the last artifact. -/
theorem C2_amended_empty (pil : List Nat → Except String Unit) (fn : String)
    (cs : List Chunk) (keySet : Bool) (prompt neg key : String) (w h : Nat)
    (hkey : lookupKey key ASPECT_RATIOS = some (w, h))
    (hclean : ∀ b ∈ artifactsOf cs, ¬ decisive b) :
    script_outcome pil cs =
      .empty ("No image artifact found in the response. Last artifact info: "
        ++ (match (artifactsOf cs).getLast? with
            | none => "No specific artifact processed."
            | some a => artifactInfo a))
    ∧ (generate_image_endpoint .initialized keySet (fun _ => .ok cs) pil fn prompt neg key).result
      = .errDetails "No image generated." "Could not generate or save image." := by
  have hfd : findDecisive (artifactsOf cs) = none := findDecisive_eq_none hclean
  constructor
  · unfold script_outcome
    rw [scriptChunks_eq pil output_filename cs {} rfl rfl, hfd]
    simp [lastInfoUpd_eq_getLast]
  · simp only [generate_image_endpoint, hkey]
    rw [mainChunks_eq pil fn cs {} rfl rfl, hfd]
    rfl

theorem C2_amended_empty_witness :
    (lookupKey "9:16_tall" ASPECT_RATIOS = some (768, 1344)
      ∧ ∀ b ∈ artifactsOf [⟨[⟨3, 2, [5]⟩]⟩], ¬ decisive b)
    ∧ (script_outcome (fun _ => .ok ()) [⟨[⟨3, 2, [5]⟩]⟩] =
        .empty ("No image artifact found in the response. Last artifact info: "
          ++ (match (artifactsOf [⟨[⟨3, 2, [5]⟩]⟩]).getLast? with
              | none => "No specific artifact processed."
              | some a => artifactInfo a))
      ∧ (generate_image_endpoint .initialized false (fun _ => .ok [⟨[⟨3, 2, [5]⟩]⟩])
            (fun _ => .ok ()) "f.png" "p" "neg" "9:16_tall").result
          = .errDetails "No image generated." "Could not generate or save image.") :=
  ⟨⟨rfl, by decide⟩,
   C2_amended_empty (fun _ => .ok ()) "f.png" [⟨[⟨3, 2, [5]⟩]⟩] false "p" "neg" "9:16_tall"
     768 1344 rfl (by decide)⟩

/-- C3: for every prompt and valid aspect-ratio key, a request with an empty
negative prompt makes exactly one provider call whose payload encodes the
single positive prompt — one component at weight +1.0 — and whose width and
height are the table's pair for the key.  (The encoding of the bare string
prompt into a weighted component is the spec-modelled `promptComponents`;
the repository itself passes the bare string to the SDK.) -/
theorem C3_single_prompt_payload (keySet : Bool)
    (provider : GenerateRequest → Except String (List Chunk))
    (pil : List Nat → Except String Unit) (fn prompt key : String) (w h : Nat)
    (hkey : lookupKey key ASPECT_RATIOS = some (w, h)) :
    (generate_image_endpoint .initialized keySet provider pil fn prompt "" key).providerCalled
      = some (buildRequest prompt "" w h)
    ∧ promptComponents (buildRequest prompt "" w h).prompt = [⟨prompt, 1⟩]
    ∧ (buildRequest prompt "" w h).width = w
    ∧ (buildRequest prompt "" w h).height = h :=
  ⟨endpoint_providerCalled keySet provider pil fn prompt "" key w h hkey,
   by simp [buildRequest, buildPromptArg, promptComponents], rfl, rfl⟩

theorem C3_witness :
    lookupKey "16:9_widescreen" ASPECT_RATIOS = some (1344, 768)
    ∧ ((generate_image_endpoint .initialized true (fun _ => .error "net down")
          (fun _ => .ok ()) "f.png" "castle" "" "16:9_widescreen").providerCalled
        = some (buildRequest "castle" "" 1344 768)
      ∧ promptComponents (buildRequest "castle" "" 1344 768).prompt = [⟨"castle", 1⟩]
      ∧ (buildRequest "castle" "" 1344 768).width = 1344
      ∧ (buildRequest "castle" "" 1344 768).height = 768) :=
  ⟨rfl,
   C3_single_prompt_payload true (fun _ => .error "net down") (fun _ => .ok ())
     "f.png" "castle" "16:9_widescreen" 1344 768 rfl⟩

/-- C4: a request whose aspect-ratio key is not in the fixed table never
reaches the provider (no `generate` call is made for any client state), and —
once the readiness check of the initialized client has passed — it returns
the invalid-aspect-ratio object listing exactly the five valid keys. -/
theorem C4_invalid_key (client : ClientState) (keySet : Bool)
    (provider : GenerateRequest → Except String (List Chunk))
    (pil : List Nat → Except String Unit) (fn prompt neg key : String)
    (hkey : lookupKey key ASPECT_RATIOS = none) :
    (generate_image_endpoint client keySet provider pil fn prompt neg key).providerCalled = none
    ∧ (client = .initialized →
        (generate_image_endpoint client keySet provider pil fn prompt neg key).result
          = .errKeys "Invalid aspect_ratio_key"
              ["1:1_square", "16:9_widescreen", "9:16_tall",
               "3:2_landscape", "2:3_portrait"]) := by
  cases client with
  | uninitialized => exact ⟨rfl, fun h => by cases h⟩
  | initialized =>
    constructor
    · simp only [generate_image_endpoint, hkey]
    · intro _
      simp only [generate_image_endpoint, hkey]
      rfl

theorem C4_witness :
    lookupKey "4:3_classic" ASPECT_RATIOS = none
    ∧ (generate_image_endpoint .initialized true (fun _ => .ok []) (fun _ => .ok ())
        "f.png" "p" "" "4:3_classic").providerCalled = none
    ∧ (generate_image_endpoint .initialized true (fun _ => .ok []) (fun _ => .ok ())
        "f.png" "p" "" "4:3_classic").result
      = .errKeys "Invalid aspect_ratio_key"
          ["1:1_square", "16:9_widescreen", "9:16_tall",
           "3:2_landscape", "2:3_portrait"] :=
  ⟨rfl,
   (C4_invalid_key .initialized true (fun _ => .ok []) (fun _ => .ok ())
     "f.png" "p" "" "4:3_classic" rfl).1,
   (C4_invalid_key .initialized true (fun _ => .ok []) (fun _ => .ok ())
     "f.png" "p" "" "4:3_classic" rfl).2 rfl⟩

/-- C5: when `STABILITY_KEY` is absent or empty the startup hook leaves the
client handle unset and the process keeps serving; every subsequent
generation request — whatever its prompt, negative prompt or (even invalid)
aspect-ratio key, so the readiness check precedes all other validation —
returns the structured not-initialized object, makes no provider call and
writes no file. -/
theorem C5_missing_credential (connect : String → Except String Unit)
    (provider : GenerateRequest → Except String (List Chunk))
    (pil : List Nat → Except String Unit) (fn prompt neg key : String) :
    startup_event none connect = .uninitialized
    ∧ startup_event (some "") connect = .uninitialized
    ∧ (generate_image_endpoint .uninitialized false provider pil fn prompt neg key).result
        = .errDetail "Stability API not initialized. Check server logs."
            "STABILITY_KEY status: NOT SET or connection FAILED. Please ensure it\x27s set correctly when starting Uvicorn."
    ∧ (generate_image_endpoint .uninitialized false provider pil fn prompt neg key).providerCalled
        = none
    ∧ (generate_image_endpoint .uninitialized false provider pil fn prompt neg key).writes = [] :=
  ⟨rfl, rfl, rfl, rfl, rfl⟩

/-- C6 counterexample: a stream whose sole artifact has the image type, with
nothing (hence no filter artifact) preceding it, but whose own finish-reason
is the filter tag: the claim says this first image artifact is decoded,
persisted and the response classified Saved, but both programs classify the
response Filtered, save no image and write no file, because the per-artifact
filter check runs before the image check. -/
theorem C6_counterexample :
    (⟨1, 4, [9]⟩ : Artifact).type = ARTIFACT_IMAGE
    ∧ mainChunks (fun _ => .ok ()) "f.png" [⟨[⟨1, 4, [9]⟩]⟩] {} =
        ({ safety_filter_triggered := true,
           error_message := "Safety filter activated. Please modify prompt." }, none)
    ∧ (mainChunks (fun _ => .ok ()) "f.png" [⟨[⟨1, 4, [9]⟩]⟩]
        ({} : MainState)).1.image_saved_successfully = false
    ∧ (mainChunks (fun _ => .ok ()) "f.png" [⟨[⟨1, 4, [9]⟩]⟩] ({} : MainState)).1.writes = []
    ∧ script_outcome (fun _ => .ok ()) [⟨[⟨1, 4, [9]⟩]⟩] = .filtered :=
  ⟨rfl, rfl, rfl, rfl, rfl⟩

/-- C6 amended: the first artifact of the stream whose type is the image
tag, provided its own finish-reason is not the filter tag, no artifact before
it is decisive (no preceding filter signal, and none of the earlier ones is
an image, it being the first), and its payload decodes successfully, makes
both programs classify the response Saved: the payload is persisted to the
target filename, and the resulting state does not depend on the artifacts
after it (`post` is arbitrary), so nothing later is processed. -/
theorem C6_amended_first_image (pil : List Nat → Except String Unit) (fn : String)
    (cs : List Chunk) (pre post : List Artifact) (a : Artifact)
    (hsplit : artifactsOf cs = pre ++ a :: post)
    (hpre : ∀ b ∈ pre, b.finish_reason ≠ FILTER ∧ b.type ≠ ARTIFACT_IMAGE)
    (hfr : a.finish_reason ≠ FILTER)
    (hty : a.type = ARTIFACT_IMAGE)
    (hpil : pil a.binary = .ok ()) :
    mainChunks pil fn cs {} =
      ({ image_saved_successfully := true, writes := [(fn, a.binary)] }, none)
    ∧ scriptChunks pil fn cs {} =
      ({ image_saved := true, last_artifact_type_info := artifactInfo a,
         writes := [(fn, a.binary)] }, none) := by
  have hnd : ∀ b ∈ pre, ¬ decisive b := by
    intro b hb hdec
    rcases hdec with h | h
    · exact (hpre b hb).1 h
    · exact (hpre b hb).2 h
  have hfd : findDecisive (artifactsOf cs) = some (pre, a, post) := by
    rw [hsplit]; exact findDecisive_eq_some hnd (Or.inr hty)
  constructor
  · rw [mainChunks_eq pil fn cs {} rfl rfl, hfd]
    simp [hfr, hpil]
  · rw [scriptChunks_eq pil fn cs {} rfl rfl, hfd]
    simp [hfr, hpil]

theorem C6_amended_witness :
    (artifactsOf [⟨[⟨3, 2, []⟩, ⟨1, 0, [9, 9]⟩]⟩]
        = [⟨3, 2, []⟩] ++ (⟨1, 0, [9, 9]⟩ : Artifact) :: []
      ∧ (∀ b ∈ [(⟨3, 2, []⟩ : Artifact)], b.finish_reason ≠ FILTER ∧ b.type ≠ ARTIFACT_IMAGE)
      ∧ (⟨1, 0, [9, 9]⟩ : Artifact).finish_reason ≠ FILTER
      ∧ (⟨1, 0, [9, 9]⟩ : Artifact).type = ARTIFACT_IMAGE)
    ∧ (mainChunks (fun _ => .ok ()) "g.png" [⟨[⟨3, 2, []⟩, ⟨1, 0, [9, 9]⟩]⟩] {} =
        ({ image_saved_successfully := true, writes := [("g.png", [9, 9])] }, none)
      ∧ scriptChunks (fun _ => .ok ()) "g.png" [⟨[⟨3, 2, []⟩, ⟨1, 0, [9, 9]⟩]⟩] {} =
        ({ image_saved := true,
           last_artifact_type_info := artifactInfo ⟨1, 0, [9, 9]⟩,
           writes := [("g.png", [9, 9])] }, none)) :=
  ⟨⟨rfl, by decide, by decide, rfl⟩,
   C6_amended_first_image (fun _ => .ok ()) "g.png"
     [⟨[⟨3, 2, []⟩, ⟨1, 0, [9, 9]⟩]⟩] [⟨3, 2, []⟩] [] ⟨1, 0, [9, 9]⟩
     rfl (by decide) (by decide) rfl rfl⟩

/-- C7: for every prompt, non-empty negative prompt and valid aspect-ratio
key, the provider call's payload carries exactly two prompt components, the
main prompt at weight +1.0 first and the negative prompt at weight −1.0
second. -/
theorem C7_negative_prompt_components (keySet : Bool)
    (provider : GenerateRequest → Except String (List Chunk))
    (pil : List Nat → Except String Unit) (fn prompt neg key : String) (w h : Nat)
    (hneg : neg ≠ "") (hkey : lookupKey key ASPECT_RATIOS = some (w, h)) :
    (generate_image_endpoint .initialized keySet provider pil fn prompt neg key).providerCalled
      = some (buildRequest prompt neg w h)
    ∧ (buildRequest prompt neg w h).prompt = .weighted [⟨prompt, 1⟩, ⟨neg, -1⟩] :=
  ⟨endpoint_providerCalled keySet provider pil fn prompt neg key w h hkey,
   by simp [buildRequest, buildPromptArg, hneg]⟩

theorem C7_witness :
    (("blurry" : String) ≠ "" ∧ lookupKey "2:3_portrait" ASPECT_RATIOS = some (832, 1216))
    ∧ ((generate_image_endpoint .initialized true (fun _ => .error "net down")
          (fun _ => .ok ()) "f.png" "castle" "blurry" "2:3_portrait").providerCalled
        = some (buildRequest "castle" "blurry" 832 1216)
      ∧ (buildRequest "castle" "blurry" 832 1216).prompt
        = .weighted [⟨"castle", 1⟩, ⟨"blurry", -1⟩]) :=
  ⟨⟨by decide, rfl⟩,
   C7_negative_prompt_components true (fun _ => .error "net down") (fun _ => .ok ())
     "f.png" "castle" "blurry" "2:3_portrait" 832 1216 (by decide) rfl⟩

/-- C8: every exception raised during the provider call or during the
response-processing loop of the endpoint is caught and converted into the
structured error object carrying the raw diagnostic string of the exception;
the (total) endpoint function therefore returns a well-formed result object
for every input instead of propagating the fault. -/
theorem C8_exception_caught (keySet : Bool)
    (provider : GenerateRequest → Except String (List Chunk))
    (pil : List Nat → Except String Unit) (fn prompt neg key : String) (w h : Nat)
    (e : String)
    (hkey : lookupKey key ASPECT_RATIOS = some (w, h))
    (hexc : provider (buildRequest prompt neg w h) = .error e
        ∨ ∃ answers, provider (buildRequest prompt neg w h) = .ok answers
            ∧ (mainChunks pil fn answers ({} : MainState)).2 = some e) :
    (generate_image_endpoint .initialized keySet provider pil fn prompt neg key).result
      = .errDetails "Failed to generate image." e := by
  simp only [generate_image_endpoint, hkey]
  rcases hexc with hp | ⟨answers, hp, hm⟩
  · rw [hp]
  · rw [hp]
    rcases h : mainChunks pil fn answers ({} : MainState) with ⟨st, eo⟩
    rw [h] at hm
    simp only at hm
    subst hm
    simp [h]

theorem C8_witness :
    (lookupKey "1:1_square" ASPECT_RATIOS = some (1024, 1024)
      ∧ ((fun (_ : GenerateRequest) => (Except.error "boom" : Except String (List Chunk)))
            (buildRequest "p" "" 1024 1024) = .error "boom"
        ∨ ∃ answers, (fun (_ : GenerateRequest) =>
              (Except.error "boom" : Except String (List Chunk))) (buildRequest "p" "" 1024 1024)
            = .ok answers
          ∧ (mainChunks (fun _ => .ok ()) "f.png" answers ({} : MainState)).2 = some "boom"))
    ∧ (generate_image_endpoint .initialized true (fun _ => .error "boom") (fun _ => .ok ())
        "f.png" "p" "" "1:1_square").result
      = .errDetails "Failed to generate image." "boom" :=
  ⟨⟨rfl, Or.inl rfl⟩,
   C8_exception_caught true (fun _ => .error "boom") (fun _ => .ok ())
     "f.png" "p" "" "1:1_square" 1024 1024 "boom" rfl (Or.inl rfl)⟩

/-- C9: in either program's run, every file write stems from an artifact
whose own finish-reason is not the filter tag (the filter check precedes the
image check on the same artifact) and which is preceded by no filter-signal
artifact in the stream: once a filter signal is observed, no file is ever
written. -/
theorem C9_filter_precedes_image (pil : List Nat → Except String Unit)
    (fn f : String) (cs : List Chunk) (bs : List Nat)
    (hw : (f, bs) ∈ (mainChunks pil fn cs ({} : MainState)).1.writes
        ∨ (f, bs) ∈ (scriptChunks pil fn cs ({} : ScriptState)).1.writes) :
    ∃ pre a post, artifactsOf cs = pre ++ a :: post
      ∧ bs = a.binary ∧ f = fn
      ∧ a.finish_reason ≠ FILTER ∧ a.type = ARTIFACT_IMAGE
      ∧ ∀ c ∈ pre, c.finish_reason ≠ FILTER := by
  cases hfd : findDecisive (artifactsOf cs) with
  | none =>
    exfalso
    rcases hw with hw | hw
    · rw [mainChunks_eq pil fn cs {} rfl rfl, hfd] at hw
      simp at hw
    · rw [scriptChunks_eq pil fn cs {} rfl rfl, hfd] at hw
      simp at hw
  | some x =>
    obtain ⟨p, a, q⟩ := x
    obtain ⟨hsplit, hprend, hdec⟩ := findDecisive_some hfd
    by_cases hfr : a.finish_reason = FILTER
    · exfalso
      rcases hw with hw | hw
      · rw [mainChunks_eq pil fn cs {} rfl rfl, hfd] at hw
        simp [hfr] at hw
      · rw [scriptChunks_eq pil fn cs {} rfl rfl, hfd] at hw
        simp [hfr] at hw
    · have hty : a.type = ARTIFACT_IMAGE := by
        rcases hdec with h | h
        · exact absurd h hfr
        · exact h
      have hnof : ∀ c ∈ p, c.finish_reason ≠ FILTER := by
        intro c hc hcf
        exact hprend c hc (Or.inl hcf)
      cases hpil : pil a.binary with
      | error e =>
        exfalso
        rcases hw with hw | hw
        · rw [mainChunks_eq pil fn cs {} rfl rfl, hfd] at hw
          simp [hfr, hpil] at hw
        · rw [scriptChunks_eq pil fn cs {} rfl rfl, hfd] at hw
          simp [hfr, hpil] at hw
      | ok u =>
        rcases hw with hw | hw
        · rw [mainChunks_eq pil fn cs {} rfl rfl, hfd] at hw
          simp [hfr, hpil] at hw
          exact ⟨p, a, q, hsplit, hw.2, hw.1, hfr, hty, hnof⟩
        · rw [scriptChunks_eq pil fn cs {} rfl rfl, hfd] at hw
          simp [hfr, hpil] at hw
          exact ⟨p, a, q, hsplit, hw.2, hw.1, hfr, hty, hnof⟩

theorem C9_witness :
    (("f.png", [7, 8]) ∈ (mainChunks (fun _ => .ok ()) "f.png"
          [⟨[⟨1, 0, [7, 8]⟩]⟩] ({} : MainState)).1.writes
      ∨ ("f.png", [7, 8]) ∈ (scriptChunks (fun _ => .ok ()) "f.png"
          [⟨[⟨1, 0, [7, 8]⟩]⟩] ({} : ScriptState)).1.writes)
    ∧ ∃ pre a post, artifactsOf [⟨[⟨1, 0, [7, 8]⟩]⟩] = pre ++ a :: post
      ∧ [7, 8] = a.binary ∧ ("f.png" : String) = "f.png"
      ∧ a.finish_reason ≠ FILTER ∧ a.type = ARTIFACT_IMAGE
      ∧ ∀ c ∈ pre, c.finish_reason ≠ FILTER :=
  ⟨Or.inl (by decide),
   C9_filter_precedes_image (fun _ => .ok ()) "f.png" "f.png"
     [⟨[⟨1, 0, [7, 8]⟩]⟩] [7, 8] (Or.inl (by decide))⟩

/-- C10: the standalone script's table has exactly the three keys
1:1_square, 16:9_widescreen and 9:16_tall; the service's table has exactly
those three plus 3:2_landscape ↦ (1216, 832) and 2:3_portrait ↦ (832, 1216);
the two tables agree on every shared key, so the standalone table is a
strict subset of the service table. -/
theorem C10_tables :
    tableKeys aspect_ratios = ["1:1_square", "16:9_widescreen", "9:16_tall"]
    ∧ tableKeys ASPECT_RATIOS
        = ["1:1_square", "16:9_widescreen", "9:16_tall", "3:2_landscape", "2:3_portrait"]
    ∧ lookupKey "1:1_square" aspect_ratios = some (1024, 1024)
    ∧ lookupKey "1:1_square" ASPECT_RATIOS = some (1024, 1024)
    ∧ lookupKey "16:9_widescreen" aspect_ratios = some (1344, 768)
    ∧ lookupKey "16:9_widescreen" ASPECT_RATIOS = some (1344, 768)
    ∧ lookupKey "9:16_tall" aspect_ratios = some (768, 1344)
    ∧ lookupKey "9:16_tall" ASPECT_RATIOS = some (768, 1344)
    ∧ lookupKey "3:2_landscape" aspect_ratios = none
    ∧ lookupKey "3:2_landscape" ASPECT_RATIOS = some (1216, 832)
    ∧ lookupKey "2:3_portrait" aspect_ratios = none
    ∧ lookupKey "2:3_portrait" ASPECT_RATIOS = some (832, 1216) :=
  ⟨rfl, rfl, rfl, rfl, rfl, rfl, rfl, rfl, rfl, rfl, rfl, rfl⟩

end ImageGen
